import Mathlib

/-!
Verification development for the livekit voice-agent sources
`src/agent.py` and `src/better_agent.py`.

The two source files each define an `Assistant` agent with a
`send_greeting` tool, an orchestration entry point `my_agent`, and (in
`agent.py`) an inbound RPC handler `handle_dom_elements_rpc`.  This file
gives a shallow embedding of those functions: JSON encoding/decoding is
modelled by an executable `JsonValue` type with `render` (for
`json.dumps`) and `parse` (for `json.loads`); the outbound
`perform_rpc` primitive is modelled by an oracle `RpcOracle` mapping a
call to either a response payload (`Except.ok`) or a raised exception
carrying a message (`Except.error`); python exceptions escaping a
function are modelled by an `Except String` codomain.
-/

/-- JSON values as produced and consumed by `json.dumps` / `json.loads`
in the source.  Numeric literals are kept as their source text since the
program never computes with them. -/
inductive JsonValue where
  | null : JsonValue
  | bool (b : Bool) : JsonValue
  | num (lit : String) : JsonValue
  | str (s : String) : JsonValue
  | arr (elems : List JsonValue) : JsonValue
  | obj (fields : List (String × JsonValue)) : JsonValue

/-- The character `U+007B` (left curly brace). -/
def objOpen : Char := Char.ofNat 123

/-- The character `U+007D` (right curly brace). -/
def objClose : Char := Char.ofNat 125

/-- Hexadecimal digit character for a value below 16. -/
def hexDigitChar (n : Nat) : Char :=
  if n < 10 then Char.ofNat (48 + n) else Char.ofNat (87 + n)

/-- A `\uXXXX` escape for a code unit. -/
def uEscape (n : Nat) : String :=
  String.mk ['\\', 'u', hexDigitChar (n / 4096 % 16), hexDigitChar (n / 256 % 16),
    hexDigitChar (n / 16 % 16), hexDigitChar (n % 16)]

/-- Escaping of one character inside a JSON string literal, following
python `json.dumps` with its default `ensure_ascii=True`. -/
def escapeJsonChar (c : Char) : String :=
  if c = '"' then "\\\""
  else if c = '\\' then "\\\\"
  else if c = '\n' then "\\n"
  else if c = '\r' then "\\r"
  else if c = '\t' then "\\t"
  else if c = Char.ofNat 8 then "\\b"
  else if c = Char.ofNat 12 then "\\f"
  else if c.toNat < 32 then uEscape c.toNat
  else if c.toNat < 127 then String.singleton c
  else if c.toNat < 65536 then uEscape c.toNat
  else uEscape (55296 + (c.toNat - 65536) / 1024) ++ uEscape (56320 + (c.toNat - 65536) % 1024)

/-- Escaping of a whole JSON string body. -/
def escapeJsonString (s : String) : String :=
  String.join (s.data.map escapeJsonChar)

mutual

/-- Serialization of a JSON value, following python `json.dumps` with its
default separators (a comma-space between items, a colon-space between a
key and its value). -/
def JsonValue.render : JsonValue → String
  | JsonValue.null => "null"
  | JsonValue.bool true => "true"
  | JsonValue.bool false => "false"
  | JsonValue.num lit => lit
  | JsonValue.str s => "\"" ++ escapeJsonString s ++ "\""
  | JsonValue.arr elems => "[" ++ renderElems elems ++ "]"
  | JsonValue.obj fields => String.singleton objOpen ++ renderFields fields ++ String.singleton objClose

/-- Comma-separated rendering of array elements. -/
def renderElems : List JsonValue → String
  | [] => ""
  | [v] => JsonValue.render v
  | v :: rest => JsonValue.render v ++ ", " ++ renderElems rest

/-- Comma-separated rendering of object fields. -/
def renderFields : List (String × JsonValue) → String
  | [] => ""
  | [(k, v)] => "\"" ++ escapeJsonString k ++ "\": " ++ JsonValue.render v
  | (k, v) :: rest =>
    "\"" ++ escapeJsonString k ++ "\": " ++ JsonValue.render v ++ ", " ++ renderFields rest

end

/-- JSON insignificant whitespace. -/
def isJsonWs (c : Char) : Bool :=
  c = ' ' || c = '\t' || c = '\n' || c = '\r'

/-- Drop leading JSON whitespace. -/
def skipWs : List Char → List Char
  | [] => []
  | c :: rest => if isJsonWs c then skipWs rest else c :: rest

/-- Value of a hexadecimal digit character, if any. -/
def hexVal (c : Char) : Option Nat :=
  if 48 ≤ c.toNat && c.toNat ≤ 57 then some (c.toNat - 48)
  else if 97 ≤ c.toNat && c.toNat ≤ 102 then some (c.toNat - 87)
  else if 65 ≤ c.toNat && c.toNat ≤ 70 then some (c.toNat - 55)
  else none

/-- Parse the body of a JSON string literal (the opening quote has been
consumed); returns the decoded string and the remaining input. -/
def parseJsonStringBody (acc : List Char) (cs : List Char) :
    Except String (String × List Char) :=
  match cs with
  | [] => Except.error "Unterminated string"
  | '"' :: rest => Except.ok (String.mk acc.reverse, rest)
  | '\\' :: rest =>
    (match rest with
     | [] => Except.error "Unterminated string"
     | e :: rest2 =>
       if e = '"' then parseJsonStringBody ('"' :: acc) rest2
       else if e = '\\' then parseJsonStringBody ('\\' :: acc) rest2
       else if e = '/' then parseJsonStringBody ('/' :: acc) rest2
       else if e = 'b' then parseJsonStringBody (Char.ofNat 8 :: acc) rest2
       else if e = 'f' then parseJsonStringBody (Char.ofNat 12 :: acc) rest2
       else if e = 'n' then parseJsonStringBody ('\n' :: acc) rest2
       else if e = 'r' then parseJsonStringBody ('\r' :: acc) rest2
       else if e = 't' then parseJsonStringBody ('\t' :: acc) rest2
       else if e = 'u' then
         match rest2 with
         | h1 :: h2 :: h3 :: h4 :: rest3 =>
           (match hexVal h1, hexVal h2, hexVal h3, hexVal h4 with
            | some a, some b, some c, some d =>
              parseJsonStringBody (Char.ofNat (4096 * a + 256 * b + 16 * c + d) :: acc) rest3
            | _, _, _, _ => Except.error "Invalid hex escape")
         | _ => Except.error "Invalid hex escape"
       else Except.error "Invalid escape"
     )
  | c :: rest =>
    if c.toNat < 32 then Except.error "Invalid control character in string"
    else parseJsonStringBody (c :: acc) rest

/-- Take a maximal run of decimal digits. -/
def takeDigits : List Char → List Char × List Char
  | [] => ([], [])
  | c :: rest =>
    if 48 ≤ c.toNat && c.toNat ≤ 57 then
      let p := takeDigits rest
      (c :: p.1, p.2)
    else ([], c :: rest)

/-- Parse the integer part of a JSON number (no leading zeros). -/
def parseIntPart : List Char → Except String (List Char × List Char)
  | [] => Except.error "Expecting value"
  | c :: rest =>
    if c = '0' then Except.ok ([c], rest)
    else if 49 ≤ c.toNat && c.toNat ≤ 57 then
      let p := takeDigits rest
      Except.ok (c :: p.1, p.2)
    else Except.error "Expecting value"

/-- Parse an optional fractional part of a JSON number. -/
def parseFracPart : List Char → Except String (List Char × List Char)
  | '.' :: rest =>
    (match takeDigits rest with
     | ([], _) => Except.error "Expecting digit after decimal point"
     | (ds, rest2) => Except.ok ('.' :: ds, rest2))
  | cs => Except.ok ([], cs)

/-- Parse an optional exponent part of a JSON number. -/
def parseExpPart : List Char → Except String (List Char × List Char)
  | c :: rest =>
    if c = 'e' || c = 'E' then
      match rest with
      | s :: rest2 =>
        if s = '+' || s = '-' then
          match takeDigits rest2 with
          | ([], _) => Except.error "Expecting digit in exponent"
          | (ds, rest3) => Except.ok (c :: s :: ds, rest3)
        else
          (match takeDigits (s :: rest2) with
           | ([], _) => Except.error "Expecting digit in exponent"
           | (ds, rest3) => Except.ok (c :: ds, rest3))
      | [] => Except.error "Expecting digit in exponent"
    else Except.ok ([], c :: rest)
  | [] => Except.ok ([], [])

/-- Parse a JSON numeric literal starting at the current position. -/
def parseJsonNumber (cs : List Char) : Except String (JsonValue × List Char) :=
  match cs with
  | '-' :: rest => do
    let p1 ← parseIntPart rest
    let p2 ← parseFracPart p1.2
    let p3 ← parseExpPart p2.2
    Except.ok (JsonValue.num (String.mk ('-' :: (p1.1 ++ p2.1 ++ p3.1))), p3.2)
  | _ => do
    let p1 ← parseIntPart cs
    let p2 ← parseFracPart p1.2
    let p3 ← parseExpPart p2.2
    Except.ok (JsonValue.num (String.mk (p1.1 ++ p2.1 ++ p3.1)), p3.2)

mutual

/-- Fuel-indexed recursive-descent parser for a JSON value, mirroring
the grammar accepted by python `json.loads`. -/
def parseJsonValue : Nat → List Char → Except String (JsonValue × List Char)
  | 0, _ => Except.error "Too deeply nested"
  | fuel + 1, cs =>
    match skipWs cs with
    | [] => Except.error "Expecting value"
    | 'n' :: 'u' :: 'l' :: 'l' :: rest => Except.ok (JsonValue.null, rest)
    | 't' :: 'r' :: 'u' :: 'e' :: rest => Except.ok (JsonValue.bool true, rest)
    | 'f' :: 'a' :: 'l' :: 's' :: 'e' :: rest => Except.ok (JsonValue.bool false, rest)
    | '"' :: rest =>
      (match parseJsonStringBody [] rest with
       | Except.ok (s, rest2) => Except.ok (JsonValue.str s, rest2)
       | Except.error e => Except.error e)
    | '[' :: rest =>
      (match skipWs rest with
       | ']' :: rest2 => Except.ok (JsonValue.arr [], rest2)
       | rest2 => parseJsonElems fuel rest2 [])
    | c :: rest =>
      if c = objOpen then
        match skipWs rest with
        | [] => Except.error "Expecting property name enclosed in double quotes"
        | c2 :: rest2 =>
          if c2 = objClose then Except.ok (JsonValue.obj [], rest2)
          else parseJsonFields fuel (c2 :: rest2) []
      else if c = '-' || (48 ≤ c.toNat && c.toNat ≤ 57) then parseJsonNumber (c :: rest)
      else Except.error "Expecting value"

/-- Parse the elements of a non-empty JSON array. -/
def parseJsonElems : Nat → List Char → List JsonValue → Except String (JsonValue × List Char)
  | 0, _, _ => Except.error "Too deeply nested"
  | fuel + 1, cs, acc =>
    match parseJsonValue fuel cs with
    | Except.error e => Except.error e
    | Except.ok (v, rest) =>
      match skipWs rest with
      | ',' :: rest2 => parseJsonElems fuel rest2 (acc ++ [v])
      | ']' :: rest2 => Except.ok (JsonValue.arr (acc ++ [v]), rest2)
      | _ => Except.error "Expecting delimiter"

/-- Parse the fields of a non-empty JSON object, positioned at a key. -/
def parseJsonFields : Nat → List Char → List (String × JsonValue) →
    Except String (JsonValue × List Char)
  | 0, _, _ => Except.error "Too deeply nested"
  | fuel + 1, cs, acc =>
    match cs with
    | '"' :: rest =>
      (match parseJsonStringBody [] rest with
       | Except.error e => Except.error e
       | Except.ok (k, rest2) =>
         match skipWs rest2 with
         | ':' :: rest3 =>
           (match parseJsonValue fuel rest3 with
            | Except.error e => Except.error e
            | Except.ok (v, rest4) =>
              match skipWs rest4 with
              | ',' :: rest5 => parseJsonFields fuel (skipWs rest5) (acc ++ [(k, v)])
              | c :: rest5 =>
                if c = objClose then Except.ok (JsonValue.obj (acc ++ [(k, v)]), rest5)
                else Except.error "Expecting delimiter"
              | [] => Except.error "Expecting delimiter")
         | _ => Except.error "Expecting colon delimiter")
    | _ => Except.error "Expecting property name enclosed in double quotes"

end

/-- `json.loads`: parse a complete JSON document, rejecting trailing
garbage. -/
def JsonValue.parse (s : String) : Except String JsonValue :=
  match parseJsonValue (2 * s.length + 4) s.data with
  | Except.ok (v, rest) =>
    (match skipWs rest with
     | [] => Except.ok v
     | _ => Except.error "Extra data")
  | Except.error e => Except.error e

/-- Lookup of a key in an association list of JSON object fields. -/
def findField : List (String × JsonValue) → String → Option JsonValue
  | [], _ => none
  | (k, v) :: rest, key => if k = key then some v else findField rest key

/-- Field lookup on a JSON value (none on non-objects). -/
def JsonValue.field : JsonValue → String → Option JsonValue
  | JsonValue.obj fields, key => findField fields key
  | _, _ => none

/-- Participant kinds of the room protocol (`rtc.ParticipantKind`). -/
inductive ParticipantKind where
  | standard : ParticipantKind
  | ingress : ParticipantKind
  | egress : ParticipantKind
  | sip : ParticipantKind
  | agent : ParticipantKind
deriving DecidableEq, Repr

/-- A connected remote endpoint, identified by its identity string. -/
structure Participant where
  identity : String
  kind : ParticipantKind
deriving DecidableEq, Repr

/-- The room as the agent sees it: the snapshot
`list(room.remote_participants.values())` of remote participants. -/
structure Room where
  remoteParticipants : List Participant
deriving DecidableEq, Repr

/-- One outbound RPC request as issued through
`room.local_participant.perform_rpc`. -/
structure RpcCall where
  destination : String
  method : String
  payload : String
deriving DecidableEq, Repr

/-- Environment model of `perform_rpc`: `Except.ok` is the awaited
response payload, `Except.error` a raised exception's message. -/
abbrev RpcOracle : Type := RpcCall → Except String String

/-- Noise-cancellation profiles offered by the plugin. -/
inductive NoiseCancellationProfile where
  | bvcTelephony : NoiseCancellationProfile
  | bvc : NoiseCancellationProfile
deriving DecidableEq, Repr

/-- Argument record handed to the noise-cancellation selector lambda. -/
structure NoiseCancellationParams where
  participant : Participant
deriving DecidableEq, Repr

/-- The selector lambda passed as `noise_cancellation` in both
`agent.py` and `better_agent.py`:
`BVCTelephony()` when the participant kind is SIP, `BVC()` otherwise. -/
def noiseCancellationSelector (params : NoiseCancellationParams) : NoiseCancellationProfile :=
  if params.participant.kind = ParticipantKind.sip then NoiseCancellationProfile.bvcTelephony
  else NoiseCancellationProfile.bvc

/-- The fixed RPC request that `agent.py`'s `Assistant.send_greeting`
issues: destination, method and payload are all literals in the call to
`perform_rpc`. -/
def AgentPy.greetCall : RpcCall :=
  { destination := "client", method := "client.greet", payload := "Hello from RPC!" }

/-- `agent.py` `Assistant.send_greeting`.  The stored room and
`client_identity` are the constructor arguments of `Assistant`; the
whole body runs inside `try/except Exception`, so an oracle error (a
raised exception) is caught and turned into the failure text. -/
def AgentPy.sendGreeting (room : Room) (clientIdentity : String) (rpc : RpcOracle)
    (message : String := "hello client from agent!") : String × List RpcCall :=
  match rpc AgentPy.greetCall with
  | Except.ok _ => ("Greeting sent to client: " ++ message, [AgentPy.greetCall])
  | Except.error e => ("Failed to send greeting. error: " ++ e, [AgentPy.greetCall])

/-- `agent.py` `handle_dom_elements_rpc`: `json.loads` the payload; on
success answer the fixed success object, on a parse exception answer
`json.dumps` of a failure object carrying the exception text. -/
def handleDomElementsRpc (payload : String) : String :=
  match JsonValue.parse payload with
  | Except.ok _ =>
    JsonValue.render (JsonValue.obj
      [("success", JsonValue.bool true),
       ("message", JsonValue.str "DOM elements received and stored")])
  | Except.error e =>
    JsonValue.render (JsonValue.obj
      [("success", JsonValue.bool false), ("message", JsonValue.str e)])

/-- The `rpc_context` dict built in `better_agent.py`'s `my_agent` and
read by `Assistant.send_greeting` through `.get`. -/
structure RpcContext where
  room : Option Room
  clientIdentity : Option String

/-- The JSON payload object `better_agent.py`'s tool serializes:
`json.dumps` of a dict with the message and the sender tag. -/
def BetterAgent.greetPayload (message : String) : JsonValue :=
  JsonValue.obj [("message", JsonValue.str message), ("from", JsonValue.str "agent")]

/-- The RPC request `better_agent.py`'s tool issues for a given client
identity and message. -/
def BetterAgent.greetCall (clientIdentity : String) (message : String) : RpcCall :=
  { destination := clientIdentity, method := "client.greet",
    payload := JsonValue.render (BetterAgent.greetPayload message) }

/-- `better_agent.py` `Assistant.send_greeting`: guard on the room being
present in the context, guard on a non-empty remote participant list,
target the first remote participant, and catch any raised exception of
the `perform_rpc` await as the failure text.  The second component lists
the outbound RPC requests issued. -/
def BetterAgent.sendGreeting (ctx : RpcContext) (rpc : RpcOracle)
    (message : String := "Hello from the agent!") : String × List RpcCall :=
  match ctx.room with
  | none => ("I can\x27t send a greeting right now - no connection to client.", [])
  | some room =>
    match room.remoteParticipants with
    | [] => ("I can\x27t send a greeting - no client connected.", [])
    | client :: _ =>
      match rpc (BetterAgent.greetCall client.identity message) with
      | Except.ok _ =>
        ("Greeting sent to client: " ++ message, [BetterAgent.greetCall client.identity message])
      | Except.error e =>
        ("Failed to send greeting: " ++ e, [BetterAgent.greetCall client.identity message])

/-- Observable steps of a `my_agent` run, after the room connect and the
`wait_for_participant` await have delivered the participant. -/
inductive SessionEvent where
  | participantJoined (identity : String) : SessionEvent
  | handlerRegistered (method : String) : SessionEvent
  | rpcAttempted (call : RpcCall) : SessionEvent
  | rpcSucceeded (response : String) : SessionEvent
  | rpcFailureLogged (err : String) : SessionEvent
  | sessionStarted : SessionEvent
  | replyGenerated : SessionEvent
deriving DecidableEq, Repr

/-- The diagnostic RPC request of `agent.py`'s `my_agent`, issued after
`session.start`: the same literals as the tool's call. -/
def AgentPy.diagnosticCall : RpcCall :=
  { destination := "client", method := "client.greet", payload := "Hello from RPC!" }

/-- `agent.py` `my_agent` after the participant await: register the
`dom_elements` handler, select `room_participants[0]` (an unguarded
index that raises `IndexError` on an empty list — modelled as the
`Except.error` outcome), start the session, run the guarded diagnostic
RPC, and generate the initial reply. -/
def AgentPy.myAgent (room : Room) (p : Participant) (rpc : RpcOracle) :
    Except String (List SessionEvent) :=
  let ev0 := [SessionEvent.participantJoined p.identity,
    SessionEvent.handlerRegistered "dom_elements"]
  match room.remoteParticipants with
  | [] => Except.error "IndexError: list index out of range"
  | _ :: _ =>
    let ev1 := ev0 ++ [SessionEvent.sessionStarted, SessionEvent.rpcAttempted AgentPy.diagnosticCall]
    let ev2 := ev1 ++
      (match rpc AgentPy.diagnosticCall with
       | Except.ok r => [SessionEvent.rpcSucceeded r]
       | Except.error e => [SessionEvent.rpcFailureLogged e])
    Except.ok (ev2 ++ [SessionEvent.replyGenerated])

/-- The JSON payload object of `better_agent.py`'s startup diagnostic
call: `json.dumps` of a dict with a message and a test flag — and no
sender tag. -/
def BetterAgent.diagnosticPayload : JsonValue :=
  JsonValue.obj [("message", JsonValue.str "Direct test from agent startup"),
    ("test", JsonValue.bool true)]

/-- The startup diagnostic RPC request of `better_agent.py`'s
`my_agent`, targeted at the awaited participant's identity. -/
def BetterAgent.diagnosticCall (p : Participant) : RpcCall :=
  { destination := p.identity, method := "client.greet",
    payload := JsonValue.render BetterAgent.diagnosticPayload }

/-- `better_agent.py` `my_agent` after the participant await: build the
context, construct the assistant, run the guarded diagnostic RPC, start
the session, and generate the initial reply.  No step can raise, so the
codomain is a plain event list. -/
def BetterAgent.myAgent (room : Room) (p : Participant) (rpc : RpcOracle) :
    List SessionEvent :=
  [SessionEvent.participantJoined p.identity,
    SessionEvent.rpcAttempted (BetterAgent.diagnosticCall p)]
  ++ (match rpc (BetterAgent.diagnosticCall p) with
      | Except.ok r => [SessionEvent.rpcSucceeded r]
      | Except.error e => [SessionEvent.rpcFailureLogged e])
  ++ [SessionEvent.sessionStarted, SessionEvent.replyGenerated]

/-- Concrete fixture: the participant of the spec scenarios. -/
def userOne : Participant := { identity := "user-1", kind := ParticipantKind.standard }

/-- Concrete fixture: a room whose only remote participant is `userOne`. -/
def userOneRoom : Room := { remoteParticipants := [userOne] }

/-- Concrete fixture: a room with zero remote participants. -/
def emptyRoom : Room := { remoteParticipants := [] }

/-- Concrete fixture: an environment whose every RPC call succeeds with
response payload "ok". -/
def okOracle : RpcOracle := fun _ => Except.ok "ok"

/-- Concrete fixture: an environment whose every RPC call raises an
exception with message "boom". -/
def failOracle : RpcOracle := fun _ => Except.error "boom"

/-- C1 (amended): in the `better_agent.py` variant, with exactly one
remote participant of identity "user-1", `send_greeting(message="hi")`
issues exactly one outbound RPC call, with method `client.greet`,
destination identity "user-1", and a payload that is the JSON
serialization of an object whose fields include "message": "hi" and
"from": "agent"; on success of that call the tool returns the text
"Greeting sent to client: hi". -/
theorem C1_better_agent_greeting (rpc : RpcOracle) (resp : String)
    (h : rpc (BetterAgent.greetCall "user-1" "hi") = Except.ok resp) :
    BetterAgent.sendGreeting { room := some userOneRoom, clientIdentity := some "user-1" } rpc "hi"
      = ("Greeting sent to client: hi", [BetterAgent.greetCall "user-1" "hi"])
    ∧ (BetterAgent.greetCall "user-1" "hi").destination = "user-1"
    ∧ (BetterAgent.greetCall "user-1" "hi").method = "client.greet"
    ∧ JsonValue.parse (BetterAgent.greetCall "user-1" "hi").payload
      = Except.ok (BetterAgent.greetPayload "hi")
    ∧ (BetterAgent.greetPayload "hi").field "message" = some (JsonValue.str "hi")
    ∧ (BetterAgent.greetPayload "hi").field "from" = some (JsonValue.str "agent") := by
  refine ⟨?_, rfl, rfl, rfl, rfl, rfl⟩
  unfold BetterAgent.sendGreeting
  simp only [userOneRoom, userOne]
  rw [h]
  rfl

/-- Witness for C1 at the all-success environment. -/
theorem C1_witness :
    okOracle (BetterAgent.greetCall "user-1" "hi") = Except.ok "ok"
    ∧ BetterAgent.sendGreeting { room := some userOneRoom, clientIdentity := some "user-1" }
        okOracle "hi"
      = ("Greeting sent to client: hi", [BetterAgent.greetCall "user-1" "hi"]) :=
  ⟨rfl, (C1_better_agent_greeting okOracle "ok" rfl).1⟩

/-- C1 counterexample: the `agent.py` variant of the tool, in the very
scenario of the claim (one remote participant "user-1", message "hi",
RPC succeeding), issues its call with destination identity "client"
rather than "user-1" and with the fixed payload "Hello from RPC!",
which is not even valid JSON — while still returning the success
text. -/
theorem C1_agentpy_counterexample :
    (AgentPy.sendGreeting userOneRoom "user-1" okOracle "hi").2
      = [{ destination := "client", method := "client.greet", payload := "Hello from RPC!" }]
    ∧ ("client" : String) ≠ "user-1"
    ∧ JsonValue.parse "Hello from RPC!" = Except.error "Expecting value"
    ∧ (AgentPy.sendGreeting userOneRoom "user-1" okOracle "hi").1
      = "Greeting sent to client: hi" := by
  exact ⟨rfl, by decide, rfl, rfl⟩

/-- C2 (amended): in the `better_agent.py` variant, with a room in the
context but zero remote participants, `send_greeting` invoked with no
argument returns the failure text referencing the absence of a
connected client and issues no outbound RPC call; the omitted message
argument defaults to "Hello from the agent!". -/
theorem C2_better_agent_no_participant (rpc : RpcOracle) (cid : Option String) :
    BetterAgent.sendGreeting { room := some emptyRoom, clientIdentity := cid } rpc
      = ("I can\x27t send a greeting - no client connected.", [])
    ∧ BetterAgent.sendGreeting { room := some emptyRoom, clientIdentity := cid } rpc
      = BetterAgent.sendGreeting { room := some emptyRoom, clientIdentity := cid } rpc
          "Hello from the agent!" :=
  ⟨rfl, rfl⟩

/-- C2 counterexample: the `agent.py` variant of the tool, invoked with
no argument in a room with zero remote participants, still attempts its
fixed outbound RPC call. -/
theorem C2_agentpy_counterexample :
    (AgentPy.sendGreeting emptyRoom "user-1" failOracle).2 = [AgentPy.greetCall]
    ∧ ([AgentPy.greetCall] : List RpcCall) ≠ [] := by
  exact ⟨rfl, by decide⟩

/-- C3 (amended): in the `better_agent.py` variant, resolving the RPC
target with zero remote participants never raises: for every message
and every environment, `send_greeting` returns the textual failure
result (and issues no call) instead of letting an exception escape. -/
theorem C3_better_agent_no_raise (message : String) (rpc : RpcOracle) (cid : Option String) :
    BetterAgent.sendGreeting { room := some emptyRoom, clientIdentity := cid } rpc message
      = ("I can\x27t send a greeting - no client connected.", []) :=
  rfl

/-- C3 counterexample: in the `agent.py` variant, the first-remote-
participant selection `room_participants[0]` inside `my_agent` raises an
IndexError that escapes when the room has zero remote participants. -/
theorem C3_agentpy_counterexample :
    AgentPy.myAgent emptyRoom userOne okOracle
      = Except.error "IndexError: list index out of range" :=
  rfl

/-- C4: for every input (any message, any stored context or room, any
RPC outcome including a raised exception), both variants of the tool
`send_greeting` return a plain-text string — the success text or one of
the apologetic failure texts — and never let an exception propagate out
of the tool. -/
theorem C4_send_greeting_always_text (room : Room) (cid message : String)
    (rpc : RpcOracle) (ctx : RpcContext) :
    ((AgentPy.sendGreeting room cid rpc message).1 = "Greeting sent to client: " ++ message
      ∨ ∃ e, (AgentPy.sendGreeting room cid rpc message).1
          = "Failed to send greeting. error: " ++ e)
    ∧ ((BetterAgent.sendGreeting ctx rpc message).1 = "Greeting sent to client: " ++ message
      ∨ (BetterAgent.sendGreeting ctx rpc message).1
          = "I can\x27t send a greeting right now - no connection to client."
      ∨ (BetterAgent.sendGreeting ctx rpc message).1
          = "I can\x27t send a greeting - no client connected."
      ∨ ∃ e, (BetterAgent.sendGreeting ctx rpc message).1
          = "Failed to send greeting: " ++ e) := by
  constructor
  · unfold AgentPy.sendGreeting
    cases h : rpc AgentPy.greetCall with
    | ok r => exact Or.inl rfl
    | error e => exact Or.inr ⟨e, rfl⟩
  · obtain ⟨roomOpt, cidOpt⟩ := ctx
    cases roomOpt with
    | none => exact Or.inr (Or.inl rfl)
    | some room =>
      obtain ⟨ps⟩ := room
      cases ps with
      | nil => exact Or.inr (Or.inr (Or.inl rfl))
      | cons client rest =>
        simp only [BetterAgent.sendGreeting]
        cases h : rpc (BetterAgent.greetCall client.identity message) with
        | ok r => exact Or.inl rfl
        | error e => exact Or.inr (Or.inr (Or.inr ⟨e, rfl⟩))

/-- C5: for every payload that `json.loads` rejects, the inbound
`dom_elements` handler catches the parse failure and returns the
serialized JSON object with "success": false and the parse error text
as "message", rather than raising. -/
theorem C5_dom_elements_parse_failure (payload e : String)
    (h : JsonValue.parse payload = Except.error e) :
    handleDomElementsRpc payload
      = JsonValue.render (JsonValue.obj
          [("success", JsonValue.bool false), ("message", JsonValue.str e)]) := by
  unfold handleDomElementsRpc
  rw [h]

/-- Witness for C5 at the spec's concrete malformed payload. -/
theorem C5_witness :
    JsonValue.parse "\x7bnot valid json"
      = Except.error "Expecting property name enclosed in double quotes"
    ∧ handleDomElementsRpc "\x7bnot valid json"
      = JsonValue.render (JsonValue.obj
          [("success", JsonValue.bool false),
           ("message", JsonValue.str "Expecting property name enclosed in double quotes")]) :=
  ⟨rfl, C5_dom_elements_parse_failure "\x7bnot valid json"
    "Expecting property name enclosed in double quotes" rfl⟩

/-- C6 (amended): the `better_agent.py` tool's outbound RPC call uses
method `client.greet` and carries the JSON serialization of an object
with a "message" field and a "from": "agent" tag; the `better_agent.py`
startup diagnostic carries JSON with a "message" field but no "from"
tag; the `agent.py` variant's calls carry the fixed non-JSON payload
"Hello from RPC!". -/
theorem C6_outbound_payloads (message : String) (client : Participant)
    (rest : List Participant) (cid : Option String) (rpc : RpcOracle) :
    (BetterAgent.sendGreeting
        { room := some { remoteParticipants := client :: rest }, clientIdentity := cid }
        rpc message).2
      = [BetterAgent.greetCall client.identity message]
    ∧ (BetterAgent.greetCall client.identity message).method = "client.greet"
    ∧ (BetterAgent.greetCall client.identity message).payload
      = JsonValue.render (BetterAgent.greetPayload message)
    ∧ (BetterAgent.greetPayload message).field "message" = some (JsonValue.str message)
    ∧ (BetterAgent.greetPayload message).field "from" = some (JsonValue.str "agent")
    ∧ BetterAgent.diagnosticPayload.field "message"
      = some (JsonValue.str "Direct test from agent startup") := by
  refine ⟨?_, rfl, rfl, ?_, ?_, rfl⟩
  · simp only [BetterAgent.sendGreeting]
    cases h : rpc (BetterAgent.greetCall client.identity message) with
    | ok r => rfl
    | error e => rfl
  · simp [BetterAgent.greetPayload, JsonValue.field, findField]
  · simp [BetterAgent.greetPayload, JsonValue.field, findField]

/-- C6 counterexample: the claim fails as stated — the `better_agent.py`
startup diagnostic call (a performed outbound `client.greet` call)
carries a JSON payload with no "from" tag, and the `agent.py` calls
carry a payload that is not JSON at all. -/
theorem C6_counterexample :
    SessionEvent.rpcAttempted (BetterAgent.diagnosticCall userOne)
      ∈ BetterAgent.myAgent userOneRoom userOne okOracle
    ∧ (BetterAgent.diagnosticCall userOne).method = "client.greet"
    ∧ (BetterAgent.diagnosticCall userOne).payload
      = JsonValue.render BetterAgent.diagnosticPayload
    ∧ BetterAgent.diagnosticPayload.field "from" = none
    ∧ JsonValue.parse AgentPy.greetCall.payload = Except.error "Expecting value" := by
  refine ⟨?_, rfl, rfl, rfl, rfl⟩
  simp [BetterAgent.myAgent, okOracle]

/-- C7: the startup diagnostic RPC call is non-fatal in both variants:
for every environment outcome, the run reaches the initial generated
reply; when the diagnostic call raises, its failure is logged and the
run still reaches the reply (for `agent.py`, provided the run survives
the unrelated participant indexing). -/
theorem C7_diagnostic_nonfatal (room : Room) (p : Participant) (rpc : RpcOracle) :
    SessionEvent.replyGenerated ∈ BetterAgent.myAgent room p rpc
    ∧ (∀ e, rpc (BetterAgent.diagnosticCall p) = Except.error e →
        SessionEvent.rpcFailureLogged e ∈ BetterAgent.myAgent room p rpc)
    ∧ (room.remoteParticipants ≠ [] →
        ∃ tr, AgentPy.myAgent room p rpc = Except.ok tr
          ∧ SessionEvent.replyGenerated ∈ tr
          ∧ ∀ e, rpc AgentPy.diagnosticCall = Except.error e →
              SessionEvent.rpcFailureLogged e ∈ tr) := by
  refine ⟨?_, ?_, ?_⟩
  · simp [BetterAgent.myAgent]
  · intro e he
    simp [BetterAgent.myAgent, he]
  · intro hne
    cases hp : room.remoteParticipants with
    | nil => exact absurd hp hne
    | cons c cs =>
      unfold AgentPy.myAgent
      rw [hp]
      refine ⟨_, rfl, by simp, ?_⟩
      intro e he
      simp [he]

/-- Witness for C7 at the all-raising environment and the one-participant
room. -/
theorem C7_witness :
    SessionEvent.replyGenerated ∈ BetterAgent.myAgent userOneRoom userOne failOracle
    ∧ SessionEvent.rpcFailureLogged "boom" ∈ BetterAgent.myAgent userOneRoom userOne failOracle
    ∧ ∃ tr, AgentPy.myAgent userOneRoom userOne failOracle = Except.ok tr
        ∧ SessionEvent.replyGenerated ∈ tr
        ∧ SessionEvent.rpcFailureLogged "boom" ∈ tr := by
  have h := C7_diagnostic_nonfatal userOneRoom userOne failOracle
  refine ⟨h.1, h.2.1 "boom" rfl, ?_⟩
  obtain ⟨tr, h1, h2, h3⟩ := h.2.2 (by decide)
  exact ⟨tr, h1, h2, h3 "boom" rfl⟩

/-- C8: the noise-cancellation selector shared by both variants yields
the telephony-grade profile exactly when the participant's kind is SIP,
and the standard profile exactly otherwise. -/
theorem C8_noise_cancellation_by_kind (params : NoiseCancellationParams) :
    (noiseCancellationSelector params = NoiseCancellationProfile.bvcTelephony
      ↔ params.participant.kind = ParticipantKind.sip)
    ∧ (noiseCancellationSelector params = NoiseCancellationProfile.bvc
      ↔ params.participant.kind ≠ ParticipantKind.sip) := by
  unfold noiseCancellationSelector
  by_cases h : params.participant.kind = ParticipantKind.sip <;> simp [h]

/-- C9: in the `agent.py` variant, the tool's outbound RPC is
independent of its inputs: for every message, stored identity, room and
environment, exactly the fixed call with destination "client" and
payload "Hello from RPC!" is issued, while on success the returned text
still interpolates the given message. -/
theorem C9_agentpy_rpc_fixed (room : Room) (cid message : String) (rpc : RpcOracle) :
    (AgentPy.sendGreeting room cid rpc message).2 = [AgentPy.greetCall]
    ∧ AgentPy.greetCall.destination = "client"
    ∧ AgentPy.greetCall.payload = "Hello from RPC!"
    ∧ ∀ r, rpc AgentPy.greetCall = Except.ok r →
        (AgentPy.sendGreeting room cid rpc message).1 = "Greeting sent to client: " ++ message := by
  refine ⟨?_, rfl, rfl, ?_⟩
  · unfold AgentPy.sendGreeting
    cases h : rpc AgentPy.greetCall with
    | ok r => rfl
    | error e => rfl
  · intro r h
    unfold AgentPy.sendGreeting
    rw [h]

/-- Witness for C9 at a room and identity unrelated to the fixed call. -/
theorem C9_witness :
    (AgentPy.sendGreeting userOneRoom "someone-else" okOracle "yo").2 = [AgentPy.greetCall]
    ∧ (AgentPy.sendGreeting userOneRoom "someone-else" okOracle "yo").1
      = "Greeting sent to client: yo" := by
  have h := C9_agentpy_rpc_fixed userOneRoom "someone-else" "yo" okOracle
  exact ⟨h.1, h.2.2.2 "ok" rfl⟩

/-- C10: the inbound `dom_elements` handler performs no structural
validation: every payload that parses as JSON of any shape yields the
fixed serialized success response. -/
theorem C10_dom_elements_no_validation (payload : String) (v : JsonValue)
    (h : JsonValue.parse payload = Except.ok v) :
    handleDomElementsRpc payload
      = JsonValue.render (JsonValue.obj
          [("success", JsonValue.bool true),
           ("message", JsonValue.str "DOM elements received and stored")]) := by
  unfold handleDomElementsRpc
  rw [h]

/-- Witness for C10 at a bare-number payload, not an array or object of
DOM element descriptors. -/
theorem C10_witness :
    JsonValue.parse "42" = Except.ok (JsonValue.num "42")
    ∧ handleDomElementsRpc "42"
      = JsonValue.render (JsonValue.obj
          [("success", JsonValue.bool true),
           ("message", JsonValue.str "DOM elements received and stored")]) :=
  ⟨rfl, C10_dom_elements_no_validation "42" (JsonValue.num "42") rfl⟩
